import Mathlib

/-!
Verification of the sky catalog / renderer core of `sky.py`.

The Python source (src/sky.py) is shallowly embedded below:

* `SkyCatalog` models the catalog class: the parsed static star table
  (`data`), the configured pyephem bodies (`ephemerides`), and the four
  parallel result sequences `names`, `vmag`, `alt`, `az` that
  `calculate()` stores on the instance (`self.names` etc.).
* The external numeric collaborators (astropy's equatorial-to-horizontal
  transform and pyephem's per-body ephemeris computation, both
  parameterized by the stored observer location and time) are modelled as
  an explicit `Ephemerides` record of functions; the code under
  verification only moves their outputs around.
* Angles are carried in degrees as rationals.  The source computes body
  angles in radians and converts with astropy's `.to(u.deg)`; since that
  conversion is linear and the pyephem `znorm` normalization commutes
  with it (radians in [-pi, pi) correspond exactly to degrees in
  [-180, 180)), the embedding works directly in degrees: `znormDeg`
  below is the degree image of `Angle.znorm`.
* Floating point is modelled by exact rationals (and by real numbers in
  the trigonometric renderer part, further down).
-/

/-- Python's `int()` conversion on a float: truncation toward zero.
Used by the renderer when passing pixel coordinates and radii to cv2. -/
def pyIntQ (q : ℚ) : ℤ := if q < 0 then ⌈q⌉ else ⌊q⌋

/-- One parsed record of the static XEphem star catalog
(`np.loadtxt(..., usecols=(0,2,3,4))` at sky.py:46, after the pipe-split
at sky.py:49-50): name, right ascension text, declination text, visual
magnitude. -/
structure CatRow where
  name : String
  ra : String
  dec : String
  mag : ℚ
deriving DecidableEq

/-- The closed set of pyephem solar-system bodies instantiated by
`SkyCatalog.__init__` (sky.py:36-42). -/
inductive Body where
  | venus
  | mars
  | jupiter
  | saturn
  | moon
  | sun
deriving DecidableEq

/-- `ephemeris.name` of each pyephem body object. -/
def Body.name : Body → String
  | .venus => "Venus"
  | .mars => "Mars"
  | .jupiter => "Jupiter"
  | .saturn => "Saturn"
  | .moon => "Moon"
  | .sun => "Sun"

/-- The four parallel result sequences stored by `calculate()`
(`self.names`, `self.vmag`, `self.alt`, `self.az`; sky.py:65-88).
`alt` and `az` are in degrees. -/
structure ObservationSet where
  names : List String
  vmag : List ℚ
  alt : List ℚ
  az : List ℚ
deriving DecidableEq

/-- Output of `ephemeris.compute(ephem_location)` for one body, read off
as degrees: `mag` is `ephemeris.mag`, `altDeg` is the raw (pre-`znorm`)
altitude `ephemeris.alt` converted to degrees, `azDeg` is `ephemeris.az`
converted to degrees (sky.py:82-85). -/
structure BodyState where
  mag : ℚ
  altDeg : ℚ
  azDeg : ℚ
deriving DecidableEq

/-- The external ephemeris/coordinate collaborators for the stored
observer location and time: `star` is astropy's ICRS to AltAz transform
of one catalog row (sky.py:71-76), returning (altitude, azimuth) in
degrees; `body` is pyephem's computation for one body (sky.py:82). -/
structure Ephemerides where
  star : CatRow → ℚ × ℚ
  body : Body → BodyState

/-- Degree image of pyephem's `Angle.znorm` (sky.py:84): the angle
normalized to [-180, 180) degrees, i.e. [-pi, pi) radians. -/
def znormDeg (d : ℚ) : ℚ := d - 360 * ⌊(d + 180) / 360⌋

/-- The `SkyCatalog` instance state: `data` is the loaded static star
table (`None` in sun-only / moon-only modes, sky.py:34-46),
`ephemerides` the configured body list (sky.py:36-42), and the last four
sequences stored by `calculate()` (empty before the first call). -/
structure SkyCatalog where
  data : Option (List CatRow)
  ephemerides : List Body
  names : List String
  vmag : List ℚ
  alt : List ℚ
  az : List ℚ

/-- The stored ObservationSet of a catalog instance. -/
def SkyCatalog.obs (s : SkyCatalog) : ObservationSet :=
  ⟨s.names, s.vmag, s.alt, s.az⟩

/-- The `if self.data is None / else` branch of `calculate()`
(sky.py:65-79): the four sequences are (re)assigned either to empty
sequences or to the batch-transformed static catalog, before the body
loop runs. -/
def calcBase (env : Ephemerides) : Option (List CatRow) → ObservationSet
  | none => ⟨[], [], [], []⟩
  | some rows =>
      ⟨rows.map (fun r => r.name),
       rows.map (fun r => r.mag),
       rows.map (fun r => (env.star r).1),
       rows.map (fun r => (env.star r).2)⟩

/-- One iteration of the body loop of `calculate()` (sky.py:81-86):
`np.insert(seq, [0], value)` prepends the body's magnitude, `znorm`ed
altitude, azimuth and name to the four sequences. -/
def calcStep (env : Ephemerides) (o : ObservationSet) (b : Body) : ObservationSet :=
  let e := env.body b
  ⟨b.name :: o.names,
   e.mag :: o.vmag,
   znormDeg e.altDeg :: o.alt,
   e.azDeg :: o.az⟩

/-- `SkyCatalog.calculate` (sky.py:58-88), in state-passing form: the
four sequences are rebuilt from `data`, every configured body is
prepended, the result is both stored on the instance and returned. -/
def SkyCatalog.calculate (s : SkyCatalog) (env : Ephemerides) :
    SkyCatalog × ObservationSet :=
  let o := s.ephemerides.foldl (calcStep env) (calcBase env s.data)
  ({ s with names := o.names, vmag := o.vmag, alt := o.alt, az := o.az }, o)

/-- Boolean-mask selection, the semantics of numpy's `array[mask]`
indexing used in `filter` (sky.py:93-103) for equal-length mask and
array. -/
def applyMask {α : Type} : List Bool → List α → List α
  | b :: bs, v :: vs => if b then v :: applyMask bs vs else applyMask bs vs
  | _, _ => []

/-- The body of `SkyCatalog.filter` (sky.py:90-105) as a function of the
stored ObservationSet: mask `alt >= min_alt` applied to all four
sequences, then mask `vmag < max_mag` applied to the survivors. -/
def obsFilter (o : ObservationSet) (minAlt maxMag : ℚ) : ObservationSet :=
  let visible := o.alt.map (fun a => decide (minAlt ≤ a))
  let names := applyMask visible o.names
  let vmag := applyMask visible o.vmag
  let alt := applyMask visible o.alt
  let az := applyMask visible o.az
  let showMags := vmag.map (fun m => decide (m < maxMag))
  ⟨applyMask showMags names,
   applyMask showMags vmag,
   applyMask showMags alt,
   applyMask showMags az⟩

/-- `SkyCatalog.filter` in state-passing form: the method reads the four
stored sequences and assigns only locals (sky.py:90-105), so the
instance state is returned unchanged alongside the filtered result. -/
def SkyCatalog.filter (s : SkyCatalog) (minAlt maxMag : ℚ) :
    SkyCatalog × ObservationSet :=
  (s, obsFilter s.obs minAlt maxMag)

/-- A row view of an aligned ObservationSet (the stored sequences always
have equal lengths, being built in lockstep by `calculate()`). -/
structure ObsRow where
  name : String
  vmag : ℚ
  alt : ℚ
  az : ℚ
deriving DecidableEq

/-- The aligned ObservationSet with the given rows. -/
def ofRows (rows : List ObsRow) : ObservationSet :=
  ⟨rows.map (fun r => r.name),
   rows.map (fun r => r.vmag),
   rows.map (fun r => r.alt),
   rows.map (fun r => r.az)⟩

/-- The full-mode body list of `SkyCatalog.__init__` (sky.py:42), in
construction order. -/
def fullBodies : List Body :=
  [.venus, .mars, .jupiter, .saturn, .moon, .sun]

/-- A freshly constructed full-mode catalog whose static table parsed to
`rows` (sky.py:42-50). -/
def fullCatalog (rows : List CatRow) : SkyCatalog :=
  ⟨some rows, fullBodies, [], [], [], []⟩

/-!
The renderer (`SkyRenderer`, sky.py:107-166).

Pixel positions involve trigonometry, so this part of the embedding
lives in the real numbers.  A cv2 raster is modelled as the list of
drawing commands issued against it: none of the verified properties
inspect individual pixels, only what is drawn where.
-/

/-- Python's `int()` on a float, truncation toward zero, on the reals. -/
noncomputable def pyIntR (r : ℝ) : ℤ := if r < 0 then ⌈r⌉ else ⌊r⌋

/-- A cv2 drawing command: a filled circle (`cv2.circle(..., -1)`,
sky.py:141), a text label (`cv2.putText`, sky.py:144), or an unfilled
circle (`cv2.circle` with default thickness, sky.py:166). -/
inductive DrawCmd where
  | circleFill (center : ℤ × ℤ) (radius : ℤ) (color : ℚ)
  | label (text : String) (org : ℤ × ℤ) (fontScale : ℚ) (color : ℚ)
  | circleOutline (center : ℤ × ℤ) (radius : ℤ) (color : ℚ)

/-- A raster, as the sequence of drawing commands issued on it. -/
abbrev Raster := List DrawCmd

/-- Astropy's `.radian` accessor on an angle stored in degrees. -/
noncomputable def degToRad (d : ℚ) : ℝ := (d : ℝ) * Real.pi / 180

/-- The `SkyRenderer` instance state (sky.py:108-111): canvas side
length, the last-rendered raster (`self.image`, initially `None`), the
filtered sequences stored by `renderCatalog` (sky.py:114), and the
pixel coordinate arrays cached by `render` (sky.py:137-138). -/
structure SkyRenderer where
  size : ℝ
  image : Option Raster
  names : List String
  vmag : List ℚ
  alt : List ℚ
  az : List ℚ
  x : List ℝ
  y : List ℝ

/-- `SkyRenderer.altazToPos` on a single (altitude, azimuth) pair in
radians (sky.py:117-131): radial distance
`r = (1 - alt / (pi/2)) * size / 2` from the canvas center, placed at
angle `-pi/2 - az`. -/
noncomputable def altazToPos (size alt az : ℝ) : ℝ × ℝ :=
  let r := (1 - alt / (Real.pi / 2)) * (size / 2)
  (r * Real.cos (-(Real.pi / 2) - az) + size / 2,
   r * Real.sin (-(Real.pi / 2) - az) + size / 2)

/-- The drawing loop of `render` (sky.py:140-144), consuming the
per-object rows `((name, vmag), (x, y))`: a filled circle of radius
`int(7 - vmag)` and intensity 255 at `(int(x), int(y))`, plus, when
`vmag < 1`, the name as a label 6 pixels to the right at font scale 1
and intensity 150.  The names reaching this loop come from plain
(non-masked) arrays, so `np.ma.is_masked(names[i])` is always False. -/
noncomputable def drawLoop : List ((String × ℚ) × (ℝ × ℝ)) → Raster
  | [] => []
  | ((n, m), (px, py)) :: rest =>
      DrawCmd.circleFill (pyIntR px, pyIntR py) (pyIntQ (7 - m)) 255 ::
        (if m < 1 then [DrawCmd.label n (pyIntR px + 6, pyIntR py) 1 150] else []) ++
          drawLoop rest

/-- `SkyRenderer.render` (sky.py:133-146) in state-passing form:
projects the stored altitude/azimuth sequence (degrees, read off in
radians) to pixel coordinates, caches the coordinate arrays `x` and `y`
on the instance, draws every object, and both stores and returns the
raster. -/
noncomputable def SkyRenderer.render (s : SkyRenderer) : SkyRenderer × Raster :=
  let pos := (s.alt.zip s.az).map (fun p => altazToPos s.size (degToRad p.1) (degToRad p.2))
  let xs := pos.map Prod.fst
  let ys := pos.map Prod.snd
  let raster := drawLoop ((s.names.zip s.vmag).zip (xs.zip ys))
  ({ s with image := some raster, x := xs, y := ys }, raster)

/-- `SkyRenderer.renderCatalog` (sky.py:113-115): stores
`catalog.filter(0, max_mag)` on the renderer and renders. -/
noncomputable def SkyRenderer.renderCatalog (s : SkyRenderer) (c : SkyCatalog)
    (maxMag : ℚ) : SkyRenderer × Raster :=
  let o := (c.filter 0 maxMag).2
  SkyRenderer.render { s with names := o.names, vmag := o.vmag, alt := o.alt, az := o.az }

/-- The squared-distance array `c = a*a + b*b` of `findStar`
(sky.py:151-153). -/
def sqDists {K : Type} [LinearOrderedField K] (xs ys : List K) (x y : K) : List K :=
  List.zipWith (fun px py => (px - x) * (px - x) + (py - y) * (py - y)) xs ys

/-- `SkyRenderer.findStar` (sky.py:148-159): squared distances from the
query pixel to every cached pixel, `argmin` (numpy: first index of the
minimum; raises `ValueError` on an empty array), and the tuple
`(alt[index], az[index], names[index])` if the minimal squared distance
is strictly below `radius * radius`, else `None`.  The cached arrays are
passed explicitly; `K` is the coordinate field (ℝ for the rendered
cache, any ordered field for the specification). -/
def findStar {K A : Type} [LinearOrderedField K] [Inhabited A]
    (xs ys : List K) (alt az : List A) (names : List String)
    (x y radius : K) : Except String (Option (A × A × String)) :=
  let c := sqDists xs ys x y
  match (List.range c.length).argmin (fun i => c.getD i 0) with
  | none => Except.error "attempt to get argmin of an empty sequence"
  | some index =>
      if c.getD index 0 < radius * radius then
        Except.ok (some (alt.getD index default, az.getD index default, names.getD index ""))
      else
        Except.ok none

/-- `SkyRenderer.highlightStar` (sky.py:161-166) in state-passing form:
projects the single (altitude, azimuth) pair and draws an unfilled
circle of the given radius and color on the caller-supplied raster.  No
instance attribute is assigned. -/
noncomputable def SkyRenderer.highlightStar (s : SkyRenderer) (img : Raster)
    (altaz : ℝ × ℝ) (radius : ℤ) (color : ℚ) : SkyRenderer × Raster :=
  let pos := altazToPos s.size altaz.1 altaz.2
  (s, img ++ [DrawCmd.circleOutline (pyIntR pos.1, pyIntR pos.2) radius color])

/-- The radii of the filled circles drawn on a raster, in drawing
order. -/
def circleRadii : Raster → List ℤ
  | [] => []
  | DrawCmd.circleFill _ r _ :: rest => r :: circleRadii rest
  | _ :: rest => circleRadii rest

/-- A catalog state with the given static table, body list and stored
ObservationSet. -/
def SkyCatalog.withObs (dat : Option (List CatRow)) (eph : List Body)
    (o : ObservationSet) : SkyCatalog :=
  ⟨dat, eph, o.names, o.vmag, o.alt, o.az⟩

/-! Helper lemmas about boolean-mask selection over parallel sequences
produced from a common row list. -/

lemma applyMask_map {α β : Type} (p : α → Bool) (f : α → β) :
    ∀ rows : List α, applyMask (rows.map p) (rows.map f) = (rows.filter p).map f := by
  intro rows
  induction rows with
  | nil => rfl
  | cons r t ih =>
      by_cases h : p r <;> simp [applyMask, List.filter_cons, h, ih]

lemma filter_then_filter {α : Type} (p q : α → Bool) :
    ∀ l : List α, (l.filter p).filter q = l.filter (fun a => p a && q a) := by
  intro l
  induction l with
  | nil => rfl
  | cons r t ih =>
      cases hp : p r <;> cases hq : q r <;>
        simp [List.filter_cons, hp, hq, ih]

lemma obsFilter_ofRows (rows : List ObsRow) (minAlt maxMag : ℚ) :
    obsFilter (ofRows rows) minAlt maxMag =
      ofRows (rows.filter
        (fun r => decide (minAlt ≤ r.alt) && decide (r.vmag < maxMag))) := by
  simp only [obsFilter, ofRows, List.map_map, Function.comp]
  rw [applyMask_map, applyMask_map, applyMask_map, applyMask_map]
  rw [List.map_map]
  rw [applyMask_map, applyMask_map, applyMask_map, applyMask_map]
  simp only [filter_then_filter, Function.comp_apply]

lemma foldl_calcStep_alt (env : Ephemerides) :
    ∀ (l : List Body) (base : ObservationSet),
      (l.foldl (calcStep env) base).alt =
        l.reverse.map (fun b => znormDeg (env.body b).altDeg) ++ base.alt := by
  intro l
  induction l with
  | nil => intro base; rfl
  | cons b t ih =>
      intro base
      simp [List.foldl_cons, ih, calcStep]

lemma foldl_calcStep_az (env : Ephemerides) :
    ∀ (l : List Body) (base : ObservationSet),
      (l.foldl (calcStep env) base).az =
        l.reverse.map (fun b => (env.body b).azDeg) ++ base.az := by
  intro l
  induction l with
  | nil => intro base; rfl
  | cons b t ih =>
      intro base
      simp [List.foldl_cons, ih, calcStep]

lemma znormDeg_bounds (d : ℚ) : -180 ≤ znormDeg d ∧ znormDeg d < 180 := by
  unfold znormDeg
  have h1 : (⌊(d + 180) / 360⌋ : ℚ) ≤ (d + 180) / 360 := Int.floor_le _
  have h2 : (d + 180) / 360 < ⌊(d + 180) / 360⌋ + 1 := Int.lt_floor_add_one _
  rw [le_div_iff₀ (by norm_num : (0:ℚ) < 360)] at h1
  rw [div_lt_iff₀ (by norm_num : (0:ℚ) < 360)] at h2
  constructor <;> nlinarith [h1, h2]

/-- C3: on every aligned stored ObservationSet, `filter(min_alt,
max_mag)` returns exactly the four subsequences of entries with altitude
at least `min_alt` (inclusive) and magnitude strictly below `max_mag`,
with the survivors in the input's relative order (the surviving row list
is a sublist of the input row list). -/
theorem filter_selects_and_preserves_order (rows : List ObsRow)
    (dat : Option (List CatRow)) (eph : List Body) (minAlt maxMag : ℚ) :
    ((SkyCatalog.withObs dat eph (ofRows rows)).filter minAlt maxMag).2 =
        ofRows (rows.filter
          (fun r => decide (minAlt ≤ r.alt) && decide (r.vmag < maxMag))) ∧
      (rows.filter
          (fun r => decide (minAlt ≤ r.alt) && decide (r.vmag < maxMag))).Sublist
        rows := by
  constructor
  · exact obsFilter_ofRows rows minAlt maxMag
  · exact List.filter_sublist rows

/-- C7: `filter` is non-mutating and idempotent: the instance state is
returned unchanged, an immediate second call returns the same result,
and re-filtering an already-filtered aligned ObservationSet with the
same thresholds returns the identical four sequences. -/
theorem filter_idempotent_and_pure (s : SkyCatalog) (minAlt maxMag : ℚ) :
    (s.filter minAlt maxMag).1 = s ∧
      ((s.filter minAlt maxMag).1.filter minAlt maxMag).2 =
        (s.filter minAlt maxMag).2 ∧
      ∀ (dat : Option (List CatRow)) (eph : List Body) (rows : List ObsRow),
        ((SkyCatalog.withObs dat eph
              ((SkyCatalog.withObs dat eph (ofRows rows)).filter minAlt maxMag).2).filter
            minAlt maxMag).2 =
          ((SkyCatalog.withObs dat eph (ofRows rows)).filter minAlt maxMag).2 := by
  refine ⟨rfl, rfl, ?_⟩
  intro dat eph rows
  have hbase :
      ((SkyCatalog.withObs dat eph (ofRows rows)).filter minAlt maxMag).2 =
        ofRows (rows.filter
          (fun r => decide (minAlt ≤ r.alt) && decide (r.vmag < maxMag))) :=
    obsFilter_ofRows rows minAlt maxMag
  rw [hbase]
  show obsFilter (ofRows _) minAlt maxMag = _
  rw [obsFilter_ofRows, filter_then_filter]
  congr 1
  apply List.filter_congr
  intro a _
  cases h1 : decide (minAlt ≤ a.alt) <;> cases h2 : decide (a.vmag < maxMag) <;> rfl

/-- C2 counterexample: on a concrete sun-only catalog, a second
`calculate()` call returns an ObservationSet of the same length as the
first call's (one entry), not one longer by the number of bodies: the
method reassigns the stored sequences from scratch (sky.py:65-79) before
prepending bodies, so nothing accumulates. -/
theorem calculate_twice_same_length :
    (((SkyCatalog.calculate ⟨none, [Body.sun], [], [], [], []⟩
            ⟨fun _ => (0, 0), fun _ => ⟨-26, 45, 180⟩⟩).1.calculate
          ⟨fun _ => (0, 0), fun _ => ⟨-26, 45, 180⟩⟩).2.names.length = 1 ∧
        (SkyCatalog.calculate ⟨none, [Body.sun], [], [], [], []⟩
            ⟨fun _ => (0, 0), fun _ => ⟨-26, 45, 180⟩⟩).2.names.length = 1) ∧
      ¬ ((SkyCatalog.calculate ⟨none, [Body.sun], [], [], [], []⟩
              ⟨fun _ => (0, 0), fun _ => ⟨-26, 45, 180⟩⟩).1.calculate
            ⟨fun _ => (0, 0), fun _ => ⟨-26, 45, 180⟩⟩).2.names.length =
          (SkyCatalog.calculate ⟨none, [Body.sun], [], [], [], []⟩
              ⟨fun _ => (0, 0), fun _ => ⟨-26, 45, 180⟩⟩).2.names.length + 1 := by
  exact ⟨⟨rfl, rfl⟩, by decide⟩

/-- C2 amended: `calculate()` rebuilds the four sequences from the
static table and the configured bodies on every call, so a second call
on the same instance (same observer and time, hence the same external
ephemeris results) returns exactly the ObservationSet of the first call
— the bodies are not duplicated and the length does not grow. -/
theorem calculate_second_call_no_duplication (s : SkyCatalog) (env : Ephemerides) :
    ((s.calculate env).1.calculate env).2 = (s.calculate env).2 ∧
      ((s.calculate env).1.calculate env).2.names.length =
        (s.calculate env).2.names.length := ⟨rfl, rfl⟩

/-- C4: a freshly constructed full-mode catalog (bodies configured in
order Venus, Mars, Jupiter, Saturn, Moon, Sun; sky.py:42) yields from
one `calculate()` call the six bodies first, in reversed construction
order Sun, Moon, Saturn, Jupiter, Mars, Venus (each body is prepended at
the front), followed by the static catalog entries in file order — in
all four parallel sequences. -/
theorem calculate_full_mode_prepend_order (env : Ephemerides) (rows : List CatRow) :
    ((fullCatalog rows).calculate env).2.names =
        ["Sun", "Moon", "Saturn", "Jupiter", "Mars", "Venus"] ++
          rows.map (fun r => r.name) ∧
      ((fullCatalog rows).calculate env).2.vmag =
        [(env.body .sun).mag, (env.body .moon).mag, (env.body .saturn).mag,
            (env.body .jupiter).mag, (env.body .mars).mag, (env.body .venus).mag] ++
          rows.map (fun r => r.mag) ∧
      ((fullCatalog rows).calculate env).2.alt =
        [znormDeg (env.body .sun).altDeg, znormDeg (env.body .moon).altDeg,
            znormDeg (env.body .saturn).altDeg, znormDeg (env.body .jupiter).altDeg,
            znormDeg (env.body .mars).altDeg, znormDeg (env.body .venus).altDeg] ++
          rows.map (fun r => (env.star r).1) ∧
      ((fullCatalog rows).calculate env).2.az =
        [(env.body .sun).azDeg, (env.body .moon).azDeg, (env.body .saturn).azDeg,
            (env.body .jupiter).azDeg, (env.body .mars).azDeg, (env.body .venus).azDeg] ++
          rows.map (fun r => (env.star r).2) := by
  exact ⟨rfl, rfl, rfl, rfl⟩

/-- C8 counterexample: with a configured body whose raw computed
altitude is 100 degrees (azimuth 30 degrees), `calculate()` stores
altitude `znorm(100°) = 100°`, which is outside [-90, 90], and stores
the azimuth unchanged (30°, not 30° + 180°):  the code applies pyephem's
`znorm` to the altitude only (sky.py:84-85) and `znorm` folds into
[-180°, 180°), not [-90°, 90°]. -/
theorem calculate_znorm_cex :
    (SkyCatalog.calculate ⟨none, [Body.sun], [], [], [], []⟩
          ⟨fun _ => (0, 0), fun _ => ⟨0, 100, 30⟩⟩).2.alt = [100] ∧
      ¬ ((100 : ℚ) ≤ 90) ∧
      (SkyCatalog.calculate ⟨none, [Body.sun], [], [], [], []⟩
          ⟨fun _ => (0, 0), fun _ => ⟨0, 100, 30⟩⟩).2.az = [30] ∧
      ¬ ((30 : ℚ) = 30 + 180) := by
  refine ⟨?_, by norm_num, ?_, by norm_num⟩
  · show [znormDeg 100] = [100]
    norm_num [znormDeg]
  · rfl

/-- C8 amended: for every configured body, `calculate()` stores the
altitude normalized by pyephem's `znorm` — folded into [-180°, 180°),
not [-90°, 90°] — and stores the azimuth without any adjustment; the
bodies' stored altitudes are the `znorm` images of the raw altitudes, in
reversed configuration order, in front of the static entries. -/
theorem calculate_znorm_altitude_only (s : SkyCatalog) (env : Ephemerides) :
    (s.calculate env).2.alt =
        s.ephemerides.reverse.map (fun b => znormDeg (env.body b).altDeg) ++
          (calcBase env s.data).alt ∧
      (s.calculate env).2.az =
        s.ephemerides.reverse.map (fun b => (env.body b).azDeg) ++
          (calcBase env s.data).az ∧
      ∀ d : ℚ, -180 ≤ znormDeg d ∧ znormDeg d < 180 := by
  refine ⟨?_, ?_, znormDeg_bounds⟩
  · exact foldl_calcStep_alt env s.ephemerides (calcBase env s.data)
  · exact foldl_calcStep_az env s.ephemerides (calcBase env s.data)

/-! Lemmas for the drawing loop: the filled-circle radii it emits. -/

lemma circleRadii_drawLoop :
    ∀ l : List ((String × ℚ) × (ℝ × ℝ)),
      circleRadii (drawLoop l) = l.map (fun e => pyIntQ (7 - e.1.2)) := by
  intro l
  induction l with
  | nil => rfl
  | cons e t ih =>
      obtain ⟨⟨n, m⟩, px, py⟩ := e
      by_cases hm : m < 1 <;> simp [drawLoop, circleRadii, hm, ih]

lemma map_zip_fst {α β γ : Type} (g : α → γ) :
    ∀ (a : List α) (b : List β), a.length = b.length →
      ((a.zip b).map fun e => g e.1) = a.map g := by
  intro a
  induction a with
  | nil => intro b _; rfl
  | cons v a ih =>
      intro b hb
      cases b with
      | nil => exact absurd hb (by simp)
      | cons w b =>
          have hb' : a.length = b.length := by simpa using hb
          simp only [List.zip_cons_cons, List.map_cons]
          rw [ih b hb']

lemma map_zip_snd {α β γ : Type} (g : β → γ) :
    ∀ (a : List α) (b : List β), a.length = b.length →
      ((a.zip b).map fun e => g e.2) = b.map g := by
  intro a
  induction a with
  | nil =>
      intro b hb
      cases b with
      | nil => rfl
      | cons w b => exact absurd hb (by simp)
  | cons v a ih =>
      intro b hb
      cases b with
      | nil => exact absurd hb (by simp)
      | cons w b =>
          have hb' : a.length = b.length := by simpa using hb
          simp only [List.zip_cons_cons, List.map_cons]
          rw [ih b hb']

lemma pyIntQ_intCast (n : ℤ) : pyIntQ (n : ℚ) = n := by
  unfold pyIntQ
  split <;> simp

lemma circleRadii_render_core (names : List String) (vmag : List ℚ)
    (xs ys : List ℝ) (h1 : names.length = vmag.length)
    (hx : vmag.length = xs.length) (hy : xs.length = ys.length) :
    circleRadii (drawLoop ((names.zip vmag).zip (xs.zip ys))) =
      vmag.map (fun m => pyIntQ (7 - m)) := by
  rw [circleRadii_drawLoop]
  have hlen : (names.zip vmag).length = (xs.zip ys).length := by
    simp only [List.length_zip]
    omega
  exact (map_zip_fst (fun p : String × ℚ => pyIntQ (7 - p.2)) _ _ hlen).trans
    (map_zip_snd (fun m : ℚ => pyIntQ (7 - m)) _ _ h1)

/-- C1 amended: for every object drawn by `render()`, the filled
circle's radius is `int(7 - magnitude)` (Python truncation toward zero),
with no lower clamp: the radii of the drawn circles are exactly
`int(7 - vmag[i])` in object order, and for magnitude at least 7 the
value passed to `cv2.circle` is zero or negative (sky.py:141). -/
theorem render_radius_unclamped (s : SkyRenderer)
    (h1 : s.names.length = s.vmag.length) (h2 : s.vmag.length = s.alt.length)
    (h3 : s.alt.length = s.az.length) :
    circleRadii (s.render).2 = s.vmag.map (fun m => pyIntQ (7 - m)) := by
  simp only [SkyRenderer.render]
  exact circleRadii_render_core s.names s.vmag _ _ h1
    (by simp only [List.length_map, List.length_zip]; omega)
    (by simp only [List.length_map])

/-- C1 witness: a concrete one-star render state with magnitude 3 draws
a single filled circle of radius `int(7 - 3) = 4`. -/
theorem render_radius_unclamped_witness :
    ((["A"].length = [(3:ℚ)].length ∧ [(3:ℚ)].length = [(45:ℚ)].length ∧
        [(45:ℚ)].length = [(10:ℚ)].length) ∧
      circleRadii ((SkyRenderer.render ⟨200, none, ["A"], [3], [45], [10], [], []⟩).2) =
        [(3:ℚ)].map (fun m => pyIntQ (7 - m))) ∧
      [(3:ℚ)].map (fun m => pyIntQ (7 - m)) = [4] :=
  ⟨⟨⟨rfl, rfl, rfl⟩,
      render_radius_unclamped ⟨200, none, ["A"], [3], [45], [10], [], []⟩ rfl rfl rfl⟩,
    by
      have h4 : (7:ℚ) - 3 = ((4:ℤ):ℚ) := by norm_num
      rw [List.map_cons, List.map_nil, h4, pyIntQ_intCast]⟩

/-- C1 counterexample: rendering a concrete state holding one object of
magnitude 10 draws a filled circle of radius `int(7 - 10) = -3`, not the
claimed `max(1, 7 - 10) = 1`: no floor at 1 pixel is applied
(sky.py:141). -/
theorem render_radius_clamp_cex :
    circleRadii ((SkyRenderer.render ⟨200, none, ["X"], [10], [90], [0], [], []⟩).2) =
        [-3] ∧
      max 1 (7 - (10 : ℤ)) = 1 ∧ ¬ ((-3 : ℤ) = max 1 (7 - (10 : ℤ))) := by
  refine ⟨?_, by decide, by decide⟩
  have h3 : (7:ℚ) - 10 = ((-3:ℤ):ℚ) := by norm_num
  simp only [SkyRenderer.render]
  rw [circleRadii_drawLoop]
  simp only [List.zip_cons_cons, List.zip_nil_right, List.map_cons, List.map_nil]
  rw [h3, pyIntQ_intCast]

/-- C5: for every (altitude, azimuth) pair in radians,
`altazToPos` returns exactly
`(r * cos(-pi/2 - az) + size/2, r * sin(-pi/2 - az) + size/2)` with
`r = (1 - alt / (pi/2)) * size/2`; consequently altitude pi/2 (zenith)
maps exactly to the canvas center `(size/2, size/2)` for any azimuth,
and altitude 0 (horizon) maps to a point at Euclidean distance `size/2`
from the center for any azimuth. -/
theorem altazToPos_spec (size alt az : ℝ) (h : 0 ≤ size) :
    altazToPos size alt az =
        ((1 - alt / (Real.pi / 2)) * (size / 2) * Real.cos (-(Real.pi / 2) - az) + size / 2,
         (1 - alt / (Real.pi / 2)) * (size / 2) * Real.sin (-(Real.pi / 2) - az) + size / 2) ∧
      (alt = Real.pi / 2 → altazToPos size alt az = (size / 2, size / 2)) ∧
      (alt = 0 →
        Real.sqrt (((altazToPos size alt az).1 - size / 2) ^ 2 +
            ((altazToPos size alt az).2 - size / 2) ^ 2) = size / 2) := by
  refine ⟨rfl, ?_, ?_⟩
  · intro h90
    subst h90
    have hpi : Real.pi / 2 ≠ 0 := ne_of_gt (by positivity)
    simp [altazToPos, div_self hpi]
  · intro h0
    subst h0
    have h2 : (0:ℝ) ≤ size / 2 := by linarith
    have key : ((altazToPos size 0 az).1 - size / 2) ^ 2 +
        ((altazToPos size 0 az).2 - size / 2) ^ 2 = (size / 2) ^ 2 := by
      have hcs := Real.cos_sq_add_sin_sq (-(Real.pi / 2) - az)
      simp only [altazToPos]
      ring_nf
      ring_nf at hcs
      nlinarith [hcs]
    rw [key, Real.sqrt_sq h2]

/-- C5 witness: at size 2, altitude 0 and azimuth 0, the projected point
lies at Euclidean distance 1 from the canvas center (1, 1). -/
theorem altazToPos_spec_witness :
    (0:ℝ) ≤ 2 ∧
      ((0:ℝ) = 0 →
        Real.sqrt (((altazToPos 2 0 0).1 - 2 / 2) ^ 2 +
            ((altazToPos 2 0 0).2 - 2 / 2) ^ 2) = 2 / 2) :=
  ⟨by norm_num, (altazToPos_spec 2 0 0 (by norm_num)).2.2⟩

/-- C6: on a non-empty cache, `findStar` returns `Except.ok` of the
(altitude, azimuth, name) tuple of a cached object at minimal squared
Euclidean distance from the query pixel exactly when that minimal
squared distance is strictly below `radius * radius`, and `Except.ok
none` (nothing found) otherwise.  `K` is the coordinate field of the
cached pixels; instantiating `K` with ℝ gives the rendered cache. -/
theorem findStar_nearest_iff (K A : Type) [LinearOrderedField K] [Inhabited A]
    (xs ys : List K) (alt az : List A) (names : List String)
    (x y radius : K) (hne : xs ≠ []) (hlen : xs.length = ys.length) :
    ∃ i, i < (sqDists xs ys x y).length ∧
      (∀ j, j < (sqDists xs ys x y).length →
        (sqDists xs ys x y).getD i 0 ≤ (sqDists xs ys x y).getD j 0) ∧
      findStar xs ys alt az names x y radius =
        Except.ok (if (sqDists xs ys x y).getD i 0 < radius * radius then
            some (alt.getD i default, az.getD i default, names.getD i "")
          else none) := by
  have hclen : (sqDists xs ys x y).length = xs.length := by
    simp [sqDists, hlen]
  have hrng : List.range (sqDists xs ys x y).length ≠ [] := by
    have hpos : 0 < (sqDists xs ys x y).length := by
      rw [hclen]
      exact List.length_pos.mpr hne
    simp only [ne_eq, List.range_eq_nil]
    omega
  obtain ⟨i, hi⟩ : ∃ i, (List.range (sqDists xs ys x y).length).argmin
      (fun k => (sqDists xs ys x y).getD k 0) = some i := by
    cases hcase : (List.range (sqDists xs ys x y).length).argmin
        (fun k => (sqDists xs ys x y).getD k 0) with
    | none => exact absurd (List.argmin_eq_none.mp hcase) hrng
    | some i => exact ⟨i, rfl⟩
  have hmemopt : i ∈ (List.range (sqDists xs ys x y).length).argmin
      (fun k => (sqDists xs ys x y).getD k 0) := by
    rw [hi]; rfl
  have hilt : i < (sqDists xs ys x y).length :=
    List.mem_range.mp (List.argmin_mem hmemopt)
  refine ⟨i, hilt, ?_, ?_⟩
  · intro j hj
    exact List.le_of_mem_argmin (List.mem_range.mpr hj) hmemopt
  · simp only [findStar, hi]
    exact (apply_ite Except.ok _ _ _).symm

/-- C6 witness: the cached pixels (100, 100) named "A" (altitude 1,
azimuth 3) and (500, 500) named "B" (altitude 2, azimuth 4); querying
(105, 102) with radius 20 finds "A" (squared distance 29 < 400), while
querying (300, 300) with radius 20 finds nothing (both squared distances
are 80000). -/
theorem findStar_nearest_iff_witness :
    (([(100:ℚ), 500] ≠ ([] : List ℚ)) ∧
        ([(100:ℚ), 500].length = [(100:ℚ), 500].length) ∧
      ∃ i, i < (sqDists [(100:ℚ), 500] [(100:ℚ), 500] 105 102).length ∧
        (∀ j, j < (sqDists [(100:ℚ), 500] [(100:ℚ), 500] 105 102).length →
          (sqDists [(100:ℚ), 500] [(100:ℚ), 500] 105 102).getD i 0 ≤
            (sqDists [(100:ℚ), 500] [(100:ℚ), 500] 105 102).getD j 0) ∧
        findStar [(100:ℚ), 500] [(100:ℚ), 500] [(1:ℚ), 2] [(3:ℚ), 4] ["A", "B"]
            105 102 20 =
          Except.ok
            (if (sqDists [(100:ℚ), 500] [(100:ℚ), 500] 105 102).getD i 0 < 20 * 20 then
              some ([(1:ℚ), 2].getD i default, [(3:ℚ), 4].getD i default,
                ["A", "B"].getD i "")
            else none)) ∧
      findStar [(100:ℚ), 500] [(100:ℚ), 500] [(1:ℚ), 2] [(3:ℚ), 4] ["A", "B"]
          105 102 20 = Except.ok (some (1, 3, "A")) ∧
      findStar [(100:ℚ), 500] [(100:ℚ), 500] [(1:ℚ), 2] [(3:ℚ), 4] ["A", "B"]
          300 300 20 = Except.ok none := by
  refine ⟨⟨by simp, rfl,
      findStar_nearest_iff ℚ ℚ [(100:ℚ), 500] [(100:ℚ), 500] [(1:ℚ), 2] [(3:ℚ), 4]
        ["A", "B"] 105 102 20 (by simp) rfl⟩, ?_, ?_⟩
  · have hc : sqDists [(100:ℚ), 500] [(100:ℚ), 500] 105 102 = [29, 314429] := by
      norm_num [sqDists]
    have hr : (20:ℚ) * 20 = 400 := by norm_num
    simp only [findStar, hc, hr]
    rfl
  · have hc : sqDists [(100:ℚ), 500] [(100:ℚ), 500] 300 300 = [80000, 80000] := by
      norm_num [sqDists]
    have hr : (20:ℚ) * 20 = 400 := by norm_num
    simp only [findStar, hc, hr]
    rfl

/-- C9: after a `render()` that drew zero objects (empty stored
altitude sequence, hence empty cached pixel arrays), `findStar` raises
numpy's empty-argmin `ValueError` — modelled as `Except.error` — for
every query, rather than returning the nothing-found value
`Except.ok none`. -/
theorem findStar_empty_cache_raises (s : SkyRenderer) (halt : s.alt = [])
    (x y radius : ℝ) :
    (s.render).1.x = [] ∧ (s.render).1.y = [] ∧
      findStar (s.render).1.x (s.render).1.y (s.render).1.alt (s.render).1.az
          (s.render).1.names x y radius =
        Except.error "attempt to get argmin of an empty sequence" := by
  have hx : (s.render).1.x = [] := by simp [SkyRenderer.render, halt]
  have hy : (s.render).1.y = [] := by simp [SkyRenderer.render, halt]
  refine ⟨hx, hy, ?_⟩
  rw [hx, hy]
  rfl

/-- C9 witness: a freshly constructed renderer with nothing stored
renders an empty cache, on which a concrete query errors. -/
theorem findStar_empty_cache_raises_witness :
    ((⟨100, none, [], [], [], [], [], []⟩ : SkyRenderer).alt = []) ∧
      ((SkyRenderer.render ⟨100, none, [], [], [], [], [], []⟩).1.x = [] ∧
        (SkyRenderer.render ⟨100, none, [], [], [], [], [], []⟩).1.y = [] ∧
        findStar (SkyRenderer.render ⟨100, none, [], [], [], [], [], []⟩).1.x
            (SkyRenderer.render ⟨100, none, [], [], [], [], [], []⟩).1.y
            (SkyRenderer.render ⟨100, none, [], [], [], [], [], []⟩).1.alt
            (SkyRenderer.render ⟨100, none, [], [], [], [], [], []⟩).1.az
            (SkyRenderer.render ⟨100, none, [], [], [], [], [], []⟩).1.names
            5 5 10 =
          Except.error "attempt to get argmin of an empty sequence") :=
  ⟨rfl, findStar_empty_cache_raises ⟨100, none, [], [], [], [], [], []⟩ rfl 5 5 10⟩

/-- C10: `highlightStar` draws only on the caller-supplied raster (one
unfilled circle appended at the projected pixel) and leaves the entire
renderer state — the last-rendered image, the cached pixel arrays and
the stored filtered sequences — unchanged, so every subsequent
`findStar` query answers exactly as before the highlight. -/
theorem highlightStar_frame (s : SkyRenderer) (img : Raster) (altaz : ℝ × ℝ)
    (radius : ℤ) (color : ℚ) :
    (s.highlightStar img altaz radius color).1 = s ∧
      (s.highlightStar img altaz radius color).2 =
        img ++ [DrawCmd.circleOutline
            (pyIntR (altazToPos s.size altaz.1 altaz.2).1,
             pyIntR (altazToPos s.size altaz.1 altaz.2).2) radius color] ∧
      ∀ qx qy qr : ℝ,
        findStar (s.highlightStar img altaz radius color).1.x
            (s.highlightStar img altaz radius color).1.y
            (s.highlightStar img altaz radius color).1.alt
            (s.highlightStar img altaz radius color).1.az
            (s.highlightStar img altaz radius color).1.names qx qy qr =
          findStar s.x s.y s.alt s.az s.names qx qy qr :=
  ⟨rfl, rfl, fun _ _ _ => rfl⟩
